import Mathlib

/-!
# Verification of snodeAlert (src/snode_alert.py)

A shallow embedding of the telemetry-processing core of `snode_alert.py`:
the `SondeAlert.on_sonde_message` callback, its criterion matcher
`sonde_meets_criteria`, the climb-rate derivation, the per-serial track
state (`last_positions`) and the per-(criterion, serial) alert ledger
(`alerted_sondes`), together with theorems settling the specification
claims about them.

Modelling choices:
* Python scalar values that can appear in a telemetry report are either
  numeric (ints/floats, embedded as `ℚ`) or non-numeric strings, on which
  `float()` raises `ValueError`.  Numeric strings are folded into the
  numeric case, since `float` treats them identically.
* A report is a finite mapping from string keys to such values, embedded
  as an association list; an arbitrary non-mapping input is `PyObj.other`.
* The external haversine distance function and the external apprise
  dispatcher are collaborators outside this repository; the processor is
  parameterised by them (`hav` for the distance in kilometers, `nok` for
  whether a dispatch call returns normally).
* A Python exception inside the `try` block aborts the remaining
  statements but keeps every mutation already performed; the top-level
  `except` swallows it.  `on_sonde_message` below returns the state and
  the list of `send_alert` dispatch calls made, with each exception point
  translated as an early return that keeps the effects made so far.
  `on_sonde_messageRaw` is the same body with the `try`/`except` removed
  (the exception, still carrying the effects made so far, propagates);
  the claim that no exception escapes the callback is the theorem that
  the former is the latter composed with the catch-all handler.
-/

set_option linter.unusedVariables false

namespace SnodeAlert

/-- A Python scalar value as it appears in a telemetry report: a numeric
value (int or float, embedded as `ℚ`), or a non-numeric string on which
`float()` raises. -/
inductive Value where
  | num (q : ℚ)
  | str (s : String)
  deriving DecidableEq, Repr

/-- Python `float(v)`: succeeds exactly on numeric values (numeric strings
are already folded into `Value.num`). -/
def Value.toFloat? : Value → Option ℚ
  | .num q => some q
  | .str s => none

/-- Python truthiness of a scalar: a number is truthy iff nonzero, a string
iff nonempty. -/
def Value.truthy : Value → Bool
  | .num q => decide (q ≠ 0)
  | .str s => decide (s ≠ "")

/-- A telemetry report: a finite string-keyed mapping of scalars,
embedded as an association list (first binding wins, as in a dict there
is at most one binding per key, but lookup is well-defined regardless). -/
def Msg := List (String × Value)

instance : DecidableEq Msg := by unfold Msg; infer_instance

/-- Lookup in an association list (Python `k in d` / `d[k]` / `d.get(k)`). -/
def alookup {α β : Type} [DecidableEq α] (k : α) : List (α × β) → Option β
  | [] => none
  | (k', v) :: rest => if k = k' then some v else alookup k rest

/-- Update/insert in an association list (Python `d[k] = v`). -/
def aupdate {α β : Type} [DecidableEq α] (k : α) (v : β) : List (α × β) → List (α × β)
  | [] => [(k, v)]
  | (k', v') :: rest => if k = k' then (k, v) :: rest else (k', v') :: aupdate k v rest

/-- The argument delivered to the stream callback: a dict, or any other
Python object (`isinstance(message, dict)` fails on the latter). -/
inductive PyObj where
  | dict (m : Msg)
  | other
  deriving DecidableEq

/-- One alert criterion from the configuration (`criteria` list entries):
a required `name`, `enabled` (the code reads it with default `True`, so the
resolved boolean is stored), and the five optional numeric bounds.  `none`
models absence of the key from the criterion dict. -/
structure Criterion where
  name : String
  enabled : Bool
  distance_miles : Option ℚ
  altitude_feet_min : Option ℚ
  altitude_feet_max : Option ℚ
  climb_rate_min : Option ℚ
  climb_rate_max : Option ℚ
  deriving DecidableEq, Repr

/-- The configuration data `on_sonde_message` reads: `self.user_location`,
`self.config['location']['name']` and `self.config['criteria']`. -/
structure Config where
  user_location : ℚ × ℚ
  location_name : String
  criteria : List Criterion

/-- The processor's mutable state: `self.alerted_sondes`
(a `defaultdict(set)`, criterion name → set of serials already alerted,
sets embedded as duplicate-free-by-construction lists) and
`self.last_positions` (serial → last stored report). -/
structure State where
  alerted_sondes : List (String × List Value)
  last_positions : List (Value × Msg)
  deriving DecidableEq

/-- One `send_alert` dispatch call: `send_alert` builds the title from the
criterion name and the body from the serial, distance, altitude and climb
rate, then calls `self.apprise.notify`.  The record carries exactly the
data that determines that call. -/
structure Notification where
  criteria_name : String
  sonde_id : Value
  distance_miles : ℚ
  altitude_feet : ℚ
  climb_rate : Option ℚ
  deriving DecidableEq, Repr

/-- SondeAlert.sonde_meets_criteria (src/snode_alert.py lines 224–246),
translated clause for clause: each bound is checked only when the key is
present, and the climb-rate bounds only when a climb rate is available. -/
def sonde_meets_criteria (c : Criterion) (distance_miles altitude_feet : ℚ)
    (climb_rate : Option ℚ) : Bool :=
  if c.distance_miles.any (fun b => decide (distance_miles > b)) then false
  else if c.altitude_feet_min.any (fun b => decide (altitude_feet < b)) then false
  else if c.altitude_feet_max.any (fun b => decide (altitude_feet > b)) then false
  else
    match climb_rate with
    | none => true
    | some cr =>
      if c.climb_rate_min.any (fun b => decide (cr < b)) then false
      else if c.climb_rate_max.any (fun b => decide (cr > b)) then false
      else true

/-- Membership test `sonde_id in self.alerted_sondes[criteria_name]`,
read-only part (a missing entry behaves as the empty set). -/
def alreadySent (st : State) (name : String) (sid : Value) : Bool :=
  match alookup name st.alerted_sondes with
  | none => false
  | some s => decide (sid ∈ s)

/-- The side effect of evaluating `self.alerted_sondes[criteria_name]` on a
`defaultdict(set)`: a missing entry is created empty (appended, preserving
insertion order). -/
def ensureEntry (st : State) (name : String) : State :=
  match alookup name st.alerted_sondes with
  | some _ => st
  | none => { st with alerted_sondes := st.alerted_sondes ++ [(name, [])] }

/-- Python `set.add` on the embedded set. -/
def setAdd (s : List Value) (x : Value) : List Value :=
  if x ∈ s then s else x :: s

/-- The mutation `self.alerted_sondes[criteria_name].add(sonde_id)`. -/
def markSent (st : State) (name : String) (sid : Value) : State :=
  { st with alerted_sondes :=
      aupdate name (setAdd ((alookup name st.alerted_sondes).getD []) sid) st.alerted_sondes }

/-- Climb-rate derivation, src/snode_alert.py lines 189–198: with a stored
previous report, read `prev_alt`/`prev_time` with default `0`, and when the
current report has a `time` key and both previous values are truthy,
convert them with `float` (raising, i.e. `.error`, on a non-numeric string)
and divide the altitude difference by the positive time difference;
otherwise the climb rate is absent (`.ok none`). -/
def computeClimbRate (prev? : Option Msg) (msg : Msg) : Except Unit (Option ℚ) :=
  match prev? with
  | none => .ok none
  | some prev =>
    let prev_alt := (alookup "alt" prev).getD (.num 0)
    let prev_time := (alookup "time" prev).getD (.num 0)
    match alookup "time" msg with
    | none => .ok none
    | some tV =>
      if prev_alt.truthy && prev_time.truthy then
        match tV.toFloat?, prev_time.toFloat? with
        | some tC, some tP =>
          if tC - tP > 0 then
            match ((alookup "alt" msg).getD (.num 0)).toFloat?, prev_alt.toFloat? with
            | some aC, some aP => .ok (some ((aC - aP) / (tC - tP)))
            | _, _ => .error ()
          else .ok none
        | _, _ => .error ()
      else .ok none

/-- The criteria loop of `on_sonde_message` (src/snode_alert.py lines
207–219): for each criterion in configured order, skip it when disabled;
when it matches, evaluate `self.alerted_sondes[criteria_name]` (creating
the entry), and if the serial is not yet in it, call `send_alert` and then
add the serial.  `nok name sid` tells whether the `apprise.notify` call
inside `send_alert` returns normally; when it raises, the exception aborts
the loop (the dispatch call itself has been made, so it is recorded) and
the pair is not added. -/
def runCriteria (nok : String → Value → Bool) (sid : Value)
    (dist alt : ℚ) (climb : Option ℚ) (st : State) :
    List Criterion → State × List Notification
  | [] => (st, [])
  | c :: rest =>
    if c.enabled = false then
      runCriteria nok sid dist alt climb st rest
    else if sonde_meets_criteria c dist alt climb then
      let st1 := ensureEntry st c.name
      if alreadySent st1 c.name sid then
        runCriteria nok sid dist alt climb st1 rest
      else
        let n : Notification := ⟨c.name, sid, dist, alt, climb⟩
        if nok c.name sid then
          let r := runCriteria nok sid dist alt climb (markSent st1 c.name sid) rest
          (r.1, n :: r.2)
        else
          (st1, [n])
    else
      runCriteria nok sid dist alt climb st rest

/-- SondeAlert.on_sonde_message (src/snode_alert.py lines 167–222).
Returns the state after the call together with the list of `send_alert`
dispatch calls made during it.  Every exception point of the body is an
early return keeping the effects made so far, because the whole body sits
inside `try: ... except Exception: log`. The conversion factors 3.28084
(meters→feet) and 0.621371 (km→miles) are the literals of lines 182 and
187. -/
def on_sonde_message (cfg : Config) (hav : ℚ × ℚ → ℚ × ℚ → ℚ)
    (nok : String → Value → Bool) (st : State) (obj : PyObj) :
    State × List Notification :=
  match obj with
  | .other => (st, [])
  | .dict msg =>
    match alookup "serial" msg, alookup "lat" msg, alookup "lon" msg with
    | some sid, some latV, some lonV =>
      match latV.toFloat?, lonV.toFloat?,
            ((alookup "alt" msg).getD (.num 0)).toFloat? with
      | some lat, some lon, some alt_m =>
        let alt_ft := alt_m * (3.28084 : ℚ)
        let dist_km := hav cfg.user_location (lat, lon)
        let dist_mi := dist_km * (0.621371 : ℚ)
        match computeClimbRate (alookup sid st.last_positions) msg with
        | .error _ => (st, [])
        | .ok climb =>
          runCriteria nok sid dist_mi alt_ft climb
            { st with last_positions := aupdate sid msg st.last_positions }
            cfg.criteria
      | _, _, _ => (st, [])
    | _, _, _ => (st, [])

/-- Processing a whole delivered sequence of reports: the stream invokes
`on_sonde_message` once per report, threading the processor state;
the emitted dispatch calls are concatenated in order. -/
def processAll (cfg : Config) (hav : ℚ × ℚ → ℚ × ℚ → ℚ)
    (nok : String → Value → Bool) (st : State) :
    List PyObj → State × List Notification
  | [] => (st, [])
  | m :: rest =>
    let r1 := on_sonde_message cfg hav nok st m
    let r2 := processAll cfg hav nok r1.1 rest
    (r2.1, r1.2 ++ r2.2)

/-- Number of dispatch calls for one (criterion name, serial) pair in a
trace. -/
def countPair (n : String) (s : Value) (ns : List Notification) : ℕ :=
  ns.countP (fun x => decide (x.criteria_name = n ∧ x.sonde_id = s))

/-- The dispatch environment in which every `apprise.notify` call returns
normally. -/
def allOk : String → Value → Bool := fun _ _ => true

/-- Sample observer configuration used by concrete witnesses. -/
def cfg0 : Config :=
  ⟨(40, -105), "Home", [⟨"close", true, some 50, none, none, none, none⟩]⟩

/-- Sample external distance function used by concrete witnesses (the
haversine collaborator is external to the repository, so witnesses may pick
any function). -/
def hav0 : ℚ × ℚ → ℚ × ℚ → ℚ := fun _ _ => 10

/-- The fresh processor state (`self.alerted_sondes` and
`self.last_positions` both empty). -/
def st0 : State := ⟨[], []⟩

/-- A sample valid first report for serial S1, used by concrete
witnesses. -/
def msg1 : Msg :=
  [("serial", .str "S1"), ("lat", .num 40.1), ("lon", .num (-105.1)),
   ("alt", .num 3000), ("time", .num 1000)]

/-- A sample valid follow-up report for serial S1 (same position, higher
altitude, ten seconds later), used by concrete witnesses. -/
def msg2 : Msg :=
  [("serial", .str "S1"), ("lat", .num 40.1), ("lon", .num (-105.1)),
   ("alt", .num 3300), ("time", .num 1010)]

/-- A sample report for S1 whose `time` value is a non-numeric string
(`float()` raises on it), used by concrete witnesses. -/
def msgBadTime : Msg :=
  [("serial", .str "S1"), ("lat", .num 40.1), ("lon", .num (-105.1)),
   ("alt", .num 3300), ("time", .str "not-a-number")]

/-- A processor state that already stores `msg1` for serial S1, used by
concrete witnesses. -/
def stPrev : State := ⟨[], [(.str "S1", msg1)]⟩

/-- A sample configuration with two enabled criteria, used by concrete
witnesses. -/
def cfg2 : Config :=
  ⟨(40, -105), "Home",
   [⟨"close", true, some 50, none, none, none, none⟩,
    ⟨"low", true, none, none, some 20000, none, none⟩]⟩

/-- The dispatch environment in which every `apprise.notify` call raises. -/
def noOk : String → Value → Bool := fun _ _ => false

/-- Indicator of the Alert Ledger holding a pair, used to account for
dispatch calls. -/
def ledgerBit (st : State) (n : String) (s : Value) : ℕ :=
  if alreadySent st n s then 1 else 0

/-- The top-level `except Exception` handler: an exception carrying the
effects made so far is swallowed and those effects are kept. -/
def handleExc {α : Type} : Except α α → α
  | .ok a => a
  | .error a => a

/-- The criteria loop with the surrounding `try` removed: identical to
`runCriteria`, but an `apprise.notify` exception propagates (as `.error`),
still carrying the state mutations and dispatch calls made so far. -/
def runCriteriaRaw (nok : String → Value → Bool) (sid : Value)
    (dist alt : ℚ) (climb : Option ℚ) (st : State) :
    List Criterion → Except (State × List Notification) (State × List Notification)
  | [] => .ok (st, [])
  | c :: rest =>
    if c.enabled = false then
      runCriteriaRaw nok sid dist alt climb st rest
    else if sonde_meets_criteria c dist alt climb then
      let st1 := ensureEntry st c.name
      if alreadySent st1 c.name sid then
        runCriteriaRaw nok sid dist alt climb st1 rest
      else
        let n : Notification := ⟨c.name, sid, dist, alt, climb⟩
        if nok c.name sid then
          match runCriteriaRaw nok sid dist alt climb (markSent st1 c.name sid) rest with
          | .ok r => .ok (r.1, n :: r.2)
          | .error r => .error (r.1, n :: r.2)
        else
          .error (st1, [n])
    else
      runCriteriaRaw nok sid dist alt climb st rest

/-- The body of `on_sonde_message` with the `try`/`except` removed: a
missing required key is a plain `return` (`.ok`), while a failing `float`
conversion or a failing dispatch is an uncaught exception (`.error`)
carrying the effects made before the raise. -/
def on_sonde_messageRaw (cfg : Config) (hav : ℚ × ℚ → ℚ × ℚ → ℚ)
    (nok : String → Value → Bool) (st : State) (obj : PyObj) :
    Except (State × List Notification) (State × List Notification) :=
  match obj with
  | .other => .ok (st, [])
  | .dict msg =>
    match alookup "serial" msg, alookup "lat" msg, alookup "lon" msg with
    | some sid, some latV, some lonV =>
      match latV.toFloat?, lonV.toFloat?,
            ((alookup "alt" msg).getD (.num 0)).toFloat? with
      | some lat, some lon, some alt_m =>
        match computeClimbRate (alookup sid st.last_positions) msg with
        | .error _ => .error (st, [])
        | .ok climb =>
          runCriteriaRaw nok sid (hav cfg.user_location (lat, lon) * (0.621371 : ℚ))
            (alt_m * (3.28084 : ℚ)) climb
            { st with last_positions := aupdate sid msg st.last_positions }
            cfg.criteria
      | _, _, _ => .error (st, [])
    | _, _, _ => .ok (st, [])

/-- Looking up the key just updated yields the new value. -/
lemma alookup_aupdate_self {α β : Type} [DecidableEq α] (k : α) (v : β)
    (l : List (α × β)) : alookup k (aupdate k v l) = some v := by
  induction l with
  | nil => simp [alookup, aupdate]
  | cons p rest ih =>
    obtain ⟨k', v'⟩ := p
    by_cases h : k = k' <;> simp [alookup, aupdate, h, ih]

/-- Updating one key leaves lookups of other keys unchanged. -/
lemma alookup_aupdate_ne {α β : Type} [DecidableEq α] {k k' : α} (v : β)
    (l : List (α × β)) (h : k' ≠ k) :
    alookup k' (aupdate k v l) = alookup k' l := by
  induction l with
  | nil => simp [alookup, aupdate, h]
  | cons p rest ih =>
    obtain ⟨k'', v'⟩ := p
    by_cases h2 : k = k''
    · subst h2; simp [alookup, aupdate, h]
    · by_cases h3 : k' = k'' <;> simp [alookup, aupdate, h2, h3, ih]

/-- Looking up in an appended list falls through to the second list when
the first has no binding for the key. -/
lemma alookup_append_right {α β : Type} [DecidableEq α] (k : α)
    (l1 l2 : List (α × β)) (h : alookup k l1 = none) :
    alookup k (l1 ++ l2) = alookup k l2 := by
  induction l1 with
  | nil => simp
  | cons p rest ih =>
    obtain ⟨k', v'⟩ := p
    by_cases h2 : k = k'
    · simp [alookup, h2] at h
    · simp only [List.cons_append]
      simp only [alookup, h2, if_false] at h ⊢
      exact ih h

/-- Looking up in an appended list uses the first list's binding when it
has one. -/
lemma alookup_append_left {α β : Type} [DecidableEq α] (k : α) (v : β)
    (l1 l2 : List (α × β)) (h : alookup k l1 = some v) :
    alookup k (l1 ++ l2) = some v := by
  induction l1 with
  | nil => simp [alookup] at h
  | cons p rest ih =>
    obtain ⟨k', v'⟩ := p
    by_cases h2 : k = k'
    · simp only [alookup, h2, if_true, List.cons_append, if_pos] at h ⊢
      exact h
    · simp only [alookup, h2, if_false, List.cons_append] at h ⊢
      exact ih h

/-- Overwriting the track state does not change the Alert Ledger. -/
lemma alreadySent_lp (st : State) (lp : List (Value × Msg)) (n : String)
    (s : Value) :
    alreadySent { st with last_positions := lp } n s = alreadySent st n s := rfl

/-- Evaluating the defaultdict entry (which may create an empty set) never
changes membership in the Alert Ledger. -/
lemma alreadySent_ensureEntry (st : State) (m n : String) (s : Value) :
    alreadySent (ensureEntry st m) n s = alreadySent st n s := by
  unfold ensureEntry
  cases h : alookup m st.alerted_sondes with
  | some _ => rfl
  | none =>
    unfold alreadySent
    simp only
    cases h2 : alookup n st.alerted_sondes with
    | some c => rw [alookup_append_left n c _ _ h2]
    | none =>
      rw [alookup_append_right n _ _ h2]
      by_cases h3 : n = m <;> simp [alookup, h3]

/-- The element just added is in the set. -/
lemma mem_setAdd_self (s : List Value) (x : Value) : x ∈ setAdd s x := by
  unfold setAdd; split
  · assumption
  · exact List.mem_cons_self x s

/-- Adding one element does not affect membership of a different one. -/
lemma mem_setAdd_other (s : List Value) (x y : Value) (h : y ≠ x) :
    (y ∈ setAdd s x) ↔ y ∈ s := by
  unfold setAdd; split
  · exact Iff.rfl
  · simp [h]

/-- After `mark_sent`, the pair is in the Alert Ledger. -/
lemma alreadySent_markSent_self (st : State) (m : String) (x : Value) :
    alreadySent (markSent st m x) m x = true := by
  unfold markSent alreadySent
  simp only [alookup_aupdate_self]
  simpa using mem_setAdd_self _ x

/-- Marking one pair does not affect any other pair's ledger membership. -/
lemma alreadySent_markSent_other (st : State) (m n : String) (x s : Value)
    (h : n ≠ m ∨ s ≠ x) :
    alreadySent (markSent st m x) n s = alreadySent st n s := by
  unfold markSent alreadySent
  by_cases h2 : n = m
  · subst h2
    have hs : s ≠ x := h.resolve_left (fun h' => h' rfl)
    simp only [alookup_aupdate_self]
    cases h3 : alookup n st.alerted_sondes with
    | none => simp [h3, mem_setAdd_other _ _ _ hs, alookup]
    | some c => simp [h3, mem_setAdd_other _ _ _ hs]
  · rw [alookup_aupdate_ne _ _ h2]

/-- Ledger membership is monotone under `mark_sent`. -/
lemma alreadySent_markSent_mono (st : State) (m n : String) (x s : Value)
    (h : alreadySent st n s = true) :
    alreadySent (markSent st m x) n s = true := by
  by_cases h2 : n = m
  · subst h2
    by_cases h3 : s = x
    · subst h3; exact alreadySent_markSent_self st n s
    · rw [alreadySent_markSent_other st n n x s (Or.inr h3)]; exact h
  · rw [alreadySent_markSent_other st m n x s (Or.inl h2)]; exact h

/-- Counting a pair over a cons of a dispatch record. -/
lemma countPair_cons (n : String) (s : Value) (x : Notification)
    (ns : List Notification) :
    countPair n s (x :: ns) =
      countPair n s ns + (if x.criteria_name = n ∧ x.sonde_id = s then 1 else 0) := by
  unfold countPair
  rw [List.countP_cons]
  by_cases h : x.criteria_name = n ∧ x.sonde_id = s <;> simp [h]

/-- Counting a pair over concatenated dispatch traces. -/
lemma countPair_append (n : String) (s : Value) (ns1 ns2 : List Notification) :
    countPair n s (ns1 ++ ns2) = countPair n s ns1 + countPair n s ns2 := by
  unfold countPair
  exact List.countP_append _ _ _

/-- Characterisation of the matcher as a conjunction of bound checks. -/
lemma sonde_meets_criteria_iff (c : Criterion) (dist alt : ℚ) (climb : Option ℚ) :
    sonde_meets_criteria c dist alt climb = true ↔
      (∀ b ∈ c.distance_miles, dist ≤ b) ∧
      (∀ b ∈ c.altitude_feet_min, b ≤ alt) ∧
      (∀ b ∈ c.altitude_feet_max, alt ≤ b) ∧
      (climb = none ∨ ∀ cr ∈ climb,
        (∀ b ∈ c.climb_rate_min, b ≤ cr) ∧ (∀ b ∈ c.climb_rate_max, cr ≤ b)) := by
  rcases c with ⟨n, e, dm, amin, amax, cmin, cmax⟩
  cases dm <;> cases amin <;> cases amax <;> cases cmin <;> cases cmax <;> cases climb <;>
    simp [sonde_meets_criteria, not_lt]

/-- Unfolding of `on_sonde_message` on a valid report: with the three
required keys present, the numeric conversions succeeding and the
climb-rate derivation (against the stored entry as it stands before the
overwrite) returning normally, the callback stores the report and runs the
criteria loop on the derived measurements. -/
lemma on_sonde_message_valid (cfg : Config) (hav : ℚ × ℚ → ℚ × ℚ → ℚ)
    (nok : String → Value → Bool) (st : State) (msg : Msg)
    (sid latV lonV : Value) (lat lon alt_m : ℚ) (climb : Option ℚ)
    (hs : alookup "serial" msg = some sid)
    (hla : alookup "lat" msg = some latV)
    (hlo : alookup "lon" msg = some lonV)
    (hlaf : latV.toFloat? = some lat)
    (hlof : lonV.toFloat? = some lon)
    (hma : ((alookup "alt" msg).getD (.num 0)).toFloat? = some alt_m)
    (hcl : computeClimbRate (alookup sid st.last_positions) msg = .ok climb) :
    on_sonde_message cfg hav nok st (.dict msg) =
      runCriteria nok sid (hav cfg.user_location (lat, lon) * (0.621371 : ℚ))
        (alt_m * (3.28084 : ℚ)) climb
        { st with last_positions := aupdate sid msg st.last_positions }
        cfg.criteria := by
  simp [on_sonde_message, hs, hla, hlo, hlaf, hlof, hma, hcl]

/-- Evaluating the defaultdict entry does not touch the track state. -/
lemma ensureEntry_last_positions (st : State) (m : String) :
    (ensureEntry st m).last_positions = st.last_positions := by
  unfold ensureEntry; split <;> rfl

/-- Marking a pair as alerted does not touch the track state. -/
lemma markSent_last_positions (st : State) (m : String) (x : Value) :
    (markSent st m x).last_positions = st.last_positions := rfl

/-- The criteria loop never touches the track state. -/
lemma runCriteria_last_positions (nok : String → Value → Bool) (sid : Value)
    (dist alt : ℚ) (climb : Option ℚ) :
    ∀ (cs : List Criterion) (st : State),
      (runCriteria nok sid dist alt climb st cs).1.last_positions =
        st.last_positions := by
  intro cs
  induction cs with
  | nil => intro st; rfl
  | cons c rest ih =>
    intro st
    simp only [runCriteria]
    split
    · exact ih st
    · split
      · split
        · exact (ih _).trans (ensureEntry_last_positions st c.name)
        · split
          · exact (ih _).trans
              ((markSent_last_positions _ c.name sid).trans
                (ensureEntry_last_positions st c.name))
          · exact ensureEntry_last_positions st c.name
      · exact ih st

/-- Every dispatch call made by the criteria loop carries the serial and
the derived measurements it was invoked with. -/
lemma runCriteria_mem (nok : String → Value → Bool) (sid : Value)
    (dist alt : ℚ) (climb : Option ℚ) :
    ∀ (cs : List Criterion) (st : State),
      ∀ n ∈ (runCriteria nok sid dist alt climb st cs).2,
        n.sonde_id = sid ∧ n.distance_miles = dist ∧
        n.altitude_feet = alt ∧ n.climb_rate = climb := by
  intro cs
  induction cs with
  | nil => intro st n hn; simp [runCriteria] at hn
  | cons c rest ih =>
    intro st n hn
    simp only [runCriteria] at hn
    split at hn
    · exact ih st n hn
    · split at hn
      · split at hn
        · exact ih _ n hn
        · split at hn
          · simp only [List.mem_cons] at hn
            rcases hn with rfl | hn
            · exact ⟨rfl, rfl, rfl, rfl⟩
            · exact ih _ n hn
          · simp only [List.mem_singleton] at hn
            subst hn; exact ⟨rfl, rfl, rfl, rfl⟩
      · exact ih st n hn

/-- Ledger accounting for one pass of the criteria loop when every
dispatch succeeds: the pair's ledger indicator afterwards equals the
indicator before plus the number of dispatch calls for the pair during the
pass.  Since the indicator is at most one, the pass dispatches a pair at
most once, and only if the pair was not in the ledger before. -/
lemma runCriteria_bit (sid : Value) (dist alt : ℚ) (climb : Option ℚ)
    (n : String) (s : Value) :
    ∀ (cs : List Criterion) (st : State),
      ledgerBit (runCriteria allOk sid dist alt climb st cs).1 n s =
        ledgerBit st n s +
          countPair n s (runCriteria allOk sid dist alt climb st cs).2 := by
  intro cs
  induction cs with
  | nil => intro st; simp [runCriteria, countPair]
  | cons c rest ih =>
    intro st
    simp only [runCriteria]
    split_ifs with h1 h2 h3 h4
    · exact ih st
    · rw [ih (ensureEntry st c.name)]
      unfold ledgerBit
      rw [alreadySent_ensureEntry]
    · rw [countPair_cons, ih (markSent (ensureEntry st c.name) c.name sid)]
      by_cases hp : c.name = n ∧ sid = s
      · obtain ⟨rfl, rfl⟩ := hp
        have hb2 : ledgerBit (markSent (ensureEntry st c.name) c.name sid) c.name sid = 1 := by
          unfold ledgerBit
          rw [alreadySent_markSent_self]
          rfl
        have hb0 : ledgerBit st c.name sid = 0 := by
          unfold ledgerBit
          rw [← alreadySent_ensureEntry st c.name c.name sid]
          simp [h3]
        rw [hb2, hb0]
        simp
        omega
      · have hne : n ≠ c.name ∨ s ≠ sid := by
          rcases not_and_or.mp hp with h | h
          · exact Or.inl (fun h' => h (h'.symm))
          · exact Or.inr (fun h' => h (h'.symm))
        have hb2 : ledgerBit (markSent (ensureEntry st c.name) c.name sid) n s =
            ledgerBit st n s := by
          unfold ledgerBit
          rw [alreadySent_markSent_other _ _ _ _ _ hne, alreadySent_ensureEntry]
        rw [hb2]
        have : ¬((⟨c.name, sid, dist, alt, climb⟩ : Notification).criteria_name = n ∧
            (⟨c.name, sid, dist, alt, climb⟩ : Notification).sonde_id = s) := by
          simpa using hp
        simp [this]
    · exact absurd h4 (by simp [allOk])
    · exact ih st

/-- Once a pair is in the Alert Ledger, the criteria loop never dispatches
it again, whatever the dispatch environment does. -/
lemma runCriteria_sent_countPair (nok : String → Value → Bool) (sid : Value)
    (dist alt : ℚ) (climb : Option ℚ) (n : String) :
    ∀ (cs : List Criterion) (st : State), alreadySent st n sid = true →
      countPair n sid (runCriteria nok sid dist alt climb st cs).2 = 0 := by
  intro cs
  induction cs with
  | nil => intro st h; simp [runCriteria, countPair]
  | cons c rest ih =>
    intro st h
    simp only [runCriteria]
    split_ifs with h1 h2 h3 h4
    · exact ih st h
    · exact ih _ ((alreadySent_ensureEntry st c.name n sid).trans h)
    · have hne : c.name ≠ n := by
        intro h'
        subst h'
        exact h3 ((alreadySent_ensureEntry st c.name c.name sid).trans h)
      rw [countPair_cons]
      have hmono : alreadySent (markSent (ensureEntry st c.name) c.name sid) n sid = true :=
        alreadySent_markSent_mono _ _ _ _ _
          ((alreadySent_ensureEntry st c.name n sid).trans h)
      rw [ih _ hmono]
      simp [hne]
    · have hne : c.name ≠ n := by
        intro h'
        subst h'
        exact h3 ((alreadySent_ensureEntry st c.name c.name sid).trans h)
      simp [countPair, hne]
    · exact ih st h

/-- With distinct criterion names and every dispatch succeeding, one pass
of the criteria loop dispatches exactly the enabled criteria that match
the measurements and whose pair is not yet in the ledger, in configured
order, each carrying its criterion's name. -/
lemma runCriteria_notifs_eq (sid : Value) (dist alt : ℚ) (climb : Option ℚ) :
    ∀ (cs : List Criterion) (st : State),
      (cs.map Criterion.name).Nodup →
      (runCriteria allOk sid dist alt climb st cs).2 =
        (cs.filter (fun c => c.enabled && sonde_meets_criteria c dist alt climb &&
          !alreadySent st c.name sid)).map
          (fun c => ⟨c.name, sid, dist, alt, climb⟩) := by
  intro cs
  induction cs with
  | nil => intro st _; simp [runCriteria]
  | cons c rest ih =>
    intro st hnd
    simp only [List.map_cons, List.nodup_cons] at hnd
    obtain ⟨hcn, hnd⟩ := hnd
    simp only [runCriteria]
    split_ifs with h1 h2 h3 h4
    · rw [ih st hnd]
      rw [List.filter_cons_of_neg (by simp [h1])]
    · have hsent : alreadySent st c.name sid = true :=
        (alreadySent_ensureEntry st c.name c.name sid).symm.trans h3
      rw [ih _ hnd]
      rw [List.filter_cons_of_neg (by simp [hsent])]
      congr 1
      apply List.filter_congr
      intro c' _
      simp [alreadySent_ensureEntry]
    · have hnot : alreadySent st c.name sid = false := by
        rw [← alreadySent_ensureEntry st c.name c.name sid]
        simpa using h3
      rw [List.filter_cons_of_pos (by simp [h1, h2, hnot])]
      simp only [List.map_cons]
      congr 1
      rw [ih _ hnd]
      apply congrArg
      apply List.filter_congr
      intro c' hc'
      have hne : c'.name ≠ c.name := by
        intro h'
        exact hcn (h' ▸ List.mem_map_of_mem Criterion.name hc')
      rw [alreadySent_markSent_other _ _ _ _ _ (Or.inl hne),
        alreadySent_ensureEntry]
    · exact absurd h4 (by simp [allOk])
    · rw [ih st hnd]
      rw [List.filter_cons_of_neg (by simp [h2])]

/-- A value on which Python `float` succeeds is numeric. -/
lemma toFloat?_eq_some (v : Value) (q : ℚ) (h : v.toFloat? = some q) :
    v = .num q := by
  cases v with
  | num q' => simp only [Value.toFloat?, Option.some.injEq] at h; rw [h]
  | str s => simp [Value.toFloat?] at h

/-- Replaying a report against itself derives no climb rate: either the
stored copy's `alt`/`time` are falsy, or the time difference is zero. -/
lemma computeClimbRate_self (msg : Msg) (aC : ℚ)
    (hma : ((alookup "alt" msg).getD (.num 0)).toFloat? = some aC)
    (hmt : alookup "time" msg = none ∨ ∃ t : ℚ, alookup "time" msg = some (.num t)) :
    computeClimbRate (some msg) msg = .ok none := by
  have hma' := toFloat?_eq_some _ _ hma
  rcases hmt with hmt | ⟨t, hmt⟩
  · simp [computeClimbRate, hmt]
  · simp only [computeClimbRate, hmt, hma', Option.getD_some, Value.truthy,
      Value.toFloat?]
    by_cases h1 : aC = 0 <;> by_cases h2 : t = 0 <;> simp [h1, h2]

/-- A criterion that matches some measurements also matches them with the
climb rate made absent (absence relaxes the climb-rate bounds). -/
lemma sonde_meets_criteria_none_of (c : Criterion) (d a : ℚ) (cl : Option ℚ)
    (h : sonde_meets_criteria c d a cl = true) :
    sonde_meets_criteria c d a none = true := by
  rw [sonde_meets_criteria_iff] at h ⊢
  exact ⟨h.1, h.2.1, h.2.2.1, Or.inl rfl⟩

/-- The ledger indicator is at most one. -/
lemma ledgerBit_le_one (st : State) (n : String) (s : Value) :
    ledgerBit st n s ≤ 1 := by
  unfold ledgerBit; split <;> omega

/-- Ledger accounting for one callback invocation when every dispatch
succeeds. -/
lemma on_sonde_message_bit (cfg : Config) (hav : ℚ × ℚ → ℚ × ℚ → ℚ)
    (st : State) (obj : PyObj) (n : String) (s : Value) :
    ledgerBit (on_sonde_message cfg hav allOk st obj).1 n s =
      ledgerBit st n s + countPair n s (on_sonde_message cfg hav allOk st obj).2 := by
  cases obj with
  | other => simp [on_sonde_message, countPair]
  | dict msg =>
    simp only [on_sonde_message]
    split
    · split
      · split
        · simp [countPair]
        · rw [runCriteria_bit]
          rfl
      · simp [countPair]
    · simp [countPair]

/-- Ledger accounting over a whole delivered sequence when every dispatch
succeeds. -/
lemma processAll_bit (cfg : Config) (hav : ℚ × ℚ → ℚ × ℚ → ℚ) :
    ∀ (msgs : List PyObj) (st : State) (n : String) (s : Value),
      ledgerBit (processAll cfg hav allOk st msgs).1 n s =
        ledgerBit st n s + countPair n s (processAll cfg hav allOk st msgs).2 := by
  intro msgs
  induction msgs with
  | nil => intro st n s; simp [processAll, countPair]
  | cons m rest ih =>
    intro st n s
    simp only [processAll]
    rw [countPair_append, ih, on_sonde_message_bit]
    omega

/-- The sample criterion "close" matches the measurements derived from
`msg1` (distance 6.21371 miles is within the 50-mile bound; no other bound
is set). -/
lemma close_matches_msg1 (u v : ℚ × ℚ) :
    sonde_meets_criteria ⟨"close", true, some 50, none, none, none, none⟩
      (hav0 u v * (0.621371 : ℚ)) (3000 * (3.28084 : ℚ)) none = true := by
  rw [sonde_meets_criteria_iff]
  refine ⟨?_, by simp, by simp, Or.inl rfl⟩
  intro b hb
  simp only [Option.mem_def, Option.some.injEq] at hb
  subst hb
  show hav0 u v * (0.621371 : ℚ) ≤ 50
  unfold hav0
  norm_num

/-- The sample criterion "low" matches the measurements derived from
`msg1` (altitude 9842.52 feet is below the 20000-foot cap; no other bound
is set). -/
lemma low_matches_msg1 (u v : ℚ × ℚ) :
    sonde_meets_criteria ⟨"low", true, none, none, some 20000, none, none⟩
      (hav0 u v * (0.621371 : ℚ)) (3000 * (3.28084 : ℚ)) none = true := by
  rw [sonde_meets_criteria_iff]
  refine ⟨by simp, by simp, ?_, Or.inl rfl⟩
  intro b hb
  simp only [Option.mem_def, Option.some.injEq] at hb
  subst hb
  norm_num

/-- Concrete evaluation of one callback on `msg1` from the fresh state:
the single criterion matches, is dispatched once and recorded in the
ledger, and the report is stored. -/
lemma run_close_msg1 :
    on_sonde_message cfg0 hav0 allOk st0 (.dict msg1) =
      (⟨[("close", [Value.str "S1"])], [(Value.str "S1", msg1)]⟩,
       [⟨"close", .str "S1", hav0 cfg0.user_location (40.1, -105.1) * (0.621371 : ℚ),
         3000 * (3.28084 : ℚ), none⟩]) := by
  rw [on_sonde_message_valid cfg0 hav0 allOk st0 msg1 (.str "S1") (.num 40.1)
    (.num (-105.1)) 40.1 (-105.1) 3000 none rfl rfl rfl rfl rfl rfl rfl]
  show runCriteria allOk (.str "S1") _ _ none _
      (⟨"close", true, some 50, none, none, none, none⟩ :: []) = _
  simp only [runCriteria, close_matches_msg1, if_true]
  norm_num [ensureEntry, alreadySent, alookup, st0, allOk, markSent, aupdate,
    setAdd]

/-- The criteria loop equals its uncaught version run under the handler. -/
lemma runCriteria_eq_handle (nok : String → Value → Bool) (sid : Value)
    (dist alt : ℚ) (climb : Option ℚ) :
    ∀ (cs : List Criterion) (st : State),
      runCriteria nok sid dist alt climb st cs =
        handleExc (runCriteriaRaw nok sid dist alt climb st cs) := by
  intro cs
  induction cs with
  | nil => intro st; rfl
  | cons c rest ih =>
    intro st
    simp only [runCriteria, runCriteriaRaw]
    split_ifs with h1 h2 h3 h4
    · exact ih st
    · exact ih _
    · rw [ih (markSent (ensureEntry st c.name) c.name sid)]
      cases hr : runCriteriaRaw nok sid dist alt climb
          (markSent (ensureEntry st c.name) c.name sid) rest with
      | ok r => simp [handleExc]
      | error r => simp [handleExc]
    · rfl
    · exact ih st

end SnodeAlert

namespace SnodeAlert

/-- C1: over any delivered sequence with every dispatch succeeding, a
(criterion name, serial) pair is dispatched at most once (and not at all
when the pair is already in the Alert Ledger), and a single report that
dispatches the pair once keeps yielding exactly one dispatch total when
replayed any number of times. -/
theorem C1_alert_at_most_once (cfg : Config) (hav : ℚ × ℚ → ℚ × ℚ → ℚ)
    (st : State) (msgs : List PyObj) (n : String) (s : Value) :
    countPair n s (processAll cfg hav allOk st msgs).2 + ledgerBit st n s ≤ 1 ∧
    (alreadySent st n s = true →
      countPair n s (processAll cfg hav allOk st msgs).2 = 0) ∧
    (∀ m : PyObj, countPair n s (on_sonde_message cfg hav allOk st m).2 = 1 →
      ∀ k : ℕ,
        countPair n s (processAll cfg hav allOk st (m :: List.replicate k m)).2 = 1) := by
  have hb := processAll_bit cfg hav msgs st n s
  have hle := ledgerBit_le_one (processAll cfg hav allOk st msgs).1 n s
  refine ⟨by omega, ?_, ?_⟩
  · intro h
    have h1 : ledgerBit st n s = 1 := by unfold ledgerBit; simp [h]
    omega
  · intro m h1 k
    have hsplit : (processAll cfg hav allOk st (m :: List.replicate k m)).2 =
        (on_sonde_message cfg hav allOk st m).2 ++
        (processAll cfg hav allOk (on_sonde_message cfg hav allOk st m).1
          (List.replicate k m)).2 := rfl
    rw [hsplit, countPair_append, h1]
    have hb1 := on_sonde_message_bit cfg hav st m n s
    have hle1 := ledgerBit_le_one (on_sonde_message cfg hav allOk st m).1 n s
    have hb2 := processAll_bit cfg hav (List.replicate k m)
      (on_sonde_message cfg hav allOk st m).1 n s
    have hle2 := ledgerBit_le_one
      (processAll cfg hav allOk (on_sonde_message cfg hav allOk st m).1
        (List.replicate k m)).1 n s
    omega

/-- Witness for C1: delivering the same matching report three times from
the fresh state dispatches the ("close", S1) pair exactly once. -/
theorem C1_alert_at_most_once_witness :
    countPair "close" (.str "S1")
      (processAll cfg0 hav0 allOk st0
        (PyObj.dict msg1 :: List.replicate 2 (PyObj.dict msg1))).2 = 1 :=
  (C1_alert_at_most_once cfg0 hav0 st0 [] "close" (.str "S1")).2.2
    (PyObj.dict msg1) (by rw [run_close_msg1]; simp [countPair]) 2

/-- C2: the matcher returns true iff every present bound is satisfied, with
climb-rate bounds vacuously satisfied when the climb rate is absent; in
particular a criterion with only `climb_rate_min` set matches any report
with absent climb rate, but rejects a present climb rate below the bound. -/
theorem C2_matcher_iff (c : Criterion) (dist alt : ℚ) (climb : Option ℚ) :
    (sonde_meets_criteria c dist alt climb = true ↔
      (∀ b ∈ c.distance_miles, dist ≤ b) ∧
      (∀ b ∈ c.altitude_feet_min, b ≤ alt) ∧
      (∀ b ∈ c.altitude_feet_max, alt ≤ b) ∧
      (climb = none ∨ ∀ cr ∈ climb,
        (∀ b ∈ c.climb_rate_min, b ≤ cr) ∧ (∀ b ∈ c.climb_rate_max, cr ≤ b))) ∧
    (∀ (nm : String) (e : Bool) (b : ℚ),
      sonde_meets_criteria ⟨nm, e, none, none, none, some b, none⟩ dist alt none = true) ∧
    (∀ (nm : String) (e : Bool) (b cr : ℚ), cr < b →
      sonde_meets_criteria ⟨nm, e, none, none, none, some b, none⟩ dist alt (some cr) = false) := by
  refine ⟨sonde_meets_criteria_iff c dist alt climb, fun nm e b => rfl, fun nm e b cr h => ?_⟩
  simp [sonde_meets_criteria, h]

/-- Witness for C2 at concrete inputs: a criterion with only
`climb_rate_min := 5` matches distance 100, altitude 2, absent climb rate,
and rejects the same measurements with climb rate 3. -/
theorem C2_matcher_iff_witness :
    sonde_meets_criteria ⟨"cmin", true, none, none, none, some 5, none⟩ 100 2 none = true ∧
    sonde_meets_criteria ⟨"cmin", true, none, none, none, some 5, none⟩ 100 2 (some 3) = false := by
  refine ⟨(C2_matcher_iff ⟨"cmin", true, none, none, none, some 5, none⟩ 100 2 none).2.1
    "cmin" true 5, (C2_matcher_iff ⟨"cmin", true, none, none, none, some 5, none⟩ 100 2
    (some 3)).2.2 "cmin" true 5 3 (by norm_num)⟩

/-- C4: an input that is not a dict, or lacks `serial`, `lat` or `lon`,
is discarded: the callback returns with both stores unchanged and no
dispatch call. -/
theorem C4_invalid_discarded (cfg : Config) (hav : ℚ × ℚ → ℚ × ℚ → ℚ)
    (nok : String → Value → Bool) (st : State) (obj : PyObj)
    (h : obj = .other ∨ ∃ m, obj = .dict m ∧
      (alookup "serial" m = none ∨ alookup "lat" m = none ∨ alookup "lon" m = none)) :
    on_sonde_message cfg hav nok st obj = (st, []) := by
  rcases h with rfl | ⟨m, rfl, h⟩
  · rfl
  · rcases h with h1 | h1 <;>
      cases h2 : alookup "serial" m <;> cases h3 : alookup "lat" m <;>
      cases h4 : alookup "lon" m <;>
      simp_all [on_sonde_message]

/-- C3: with a previous stored report for the serial, if the current
report has a numeric `time`, the previous report has nonzero numeric `alt`
and `time`, and the current `alt` converts (defaulting to 0 when absent),
the derived climb rate is `(C.alt - P.alt) / dt` when `dt = C.time - P.time`
is positive and absent when `dt ≤ 0`; when the current `time` or a previous
required field is missing, the climb rate is absent (`.ok none`), not zero
and not an error. -/
theorem C3_climb_rate_derivation (prev msg : Msg) (tC tP aC aP : ℚ) :
    (alookup "time" prev = some (.num tP) → tP ≠ 0 →
     alookup "alt" prev = some (.num aP) → aP ≠ 0 →
     ((alookup "alt" msg).getD (.num 0)).toFloat? = some aC →
     alookup "time" msg = some (.num tC) →
      computeClimbRate (some prev) msg =
        .ok (if tC - tP > 0 then some ((aC - aP) / (tC - tP)) else none)) ∧
    (alookup "time" msg = none → computeClimbRate (some prev) msg = .ok none) ∧
    (alookup "alt" prev = none → computeClimbRate (some prev) msg = .ok none) ∧
    (alookup "time" prev = none → computeClimbRate (some prev) msg = .ok none) := by
  refine ⟨?_, ?_, ?_, ?_⟩
  · intro hpt htP hpa haP hma hmt
    have hma' : (alookup "alt" msg).getD (Value.num 0) = Value.num aC := by
      cases h' : (alookup "alt" msg).getD (Value.num 0) with
      | num q => rw [h'] at hma; simp [Value.toFloat?] at hma; rw [hma]
      | str s => rw [h'] at hma; simp [Value.toFloat?] at hma
    simp only [computeClimbRate, hpt, hpa, hmt, hma', Option.getD_some,
      Value.truthy, Value.toFloat?]
    simp [htP, haP]
    split <;> rfl
  · intro hmt
    simp [computeClimbRate, hmt]
  · intro hpa
    cases hmt : alookup "time" msg <;>
      simp [computeClimbRate, hpa, hmt, Value.truthy]
  · intro hpt
    cases hmt : alookup "time" msg <;>
      simp [computeClimbRate, hpt, hmt, Value.truthy]

/-- Witness for C3: from a stored report at altitude 3000 m, time 1000, a
report at altitude 3300 m, time 1010 derives a climb rate of 30 m/s. -/
theorem C3_climb_rate_derivation_witness :
    computeClimbRate (some msg1) msg2 = .ok (some 30) := by
  have h := (C3_climb_rate_derivation msg1 msg2 1010 1000 3300 3000).1
    rfl (by norm_num) rfl (by norm_num) rfl rfl
  rw [h]
  norm_num

/-- C5: processing a valid report overwrites the track-state entry for its
serial with exactly that report (so the entry holds the latest report, also
for the first report of a serial), leaves entries of all other serials
unchanged, and the climb rate attached to every dispatch of this report is
the one derived from the entry as it stood before the overwrite (the `hcl`
hypothesis reads `st.last_positions`, the pre-overwrite store). -/
theorem C5_track_state (cfg : Config) (hav : ℚ × ℚ → ℚ × ℚ → ℚ)
    (nok : String → Value → Bool) (st : State) (msg : Msg)
    (sid latV lonV : Value) (lat lon alt_m : ℚ) (climb : Option ℚ)
    (hs : alookup "serial" msg = some sid)
    (hla : alookup "lat" msg = some latV)
    (hlo : alookup "lon" msg = some lonV)
    (hlaf : latV.toFloat? = some lat)
    (hlof : lonV.toFloat? = some lon)
    (hma : ((alookup "alt" msg).getD (.num 0)).toFloat? = some alt_m)
    (hcl : computeClimbRate (alookup sid st.last_positions) msg = .ok climb) :
    (on_sonde_message cfg hav nok st (.dict msg)).1.last_positions =
      aupdate sid msg st.last_positions ∧
    alookup sid (on_sonde_message cfg hav nok st (.dict msg)).1.last_positions =
      some msg ∧
    (∀ sid' : Value, sid' ≠ sid →
      alookup sid' (on_sonde_message cfg hav nok st (.dict msg)).1.last_positions =
        alookup sid' st.last_positions) ∧
    (∀ n ∈ (on_sonde_message cfg hav nok st (.dict msg)).2,
      n.climb_rate = climb) := by
  have h := on_sonde_message_valid cfg hav nok st msg sid latV lonV lat lon
    alt_m climb hs hla hlo hlaf hlof hma hcl
  rw [h]
  have hlp := runCriteria_last_positions nok sid
    (hav cfg.user_location (lat, lon) * (0.621371 : ℚ)) (alt_m * (3.28084 : ℚ))
    climb cfg.criteria
    { st with last_positions := aupdate sid msg st.last_positions }
  refine ⟨hlp, ?_, ?_, ?_⟩
  · rw [hlp]; exact alookup_aupdate_self sid msg st.last_positions
  · intro sid' hne
    rw [hlp]; exact alookup_aupdate_ne msg st.last_positions hne
  · intro n hn
    exact (runCriteria_mem nok sid _ _ climb cfg.criteria _ n hn).2.2.2

/-- Witness for C5: the first valid report for S1, processed from the
fresh state, is stored under its serial. -/
theorem C5_track_state_witness :
    (on_sonde_message cfg0 hav0 allOk st0 (.dict msg1)).1.last_positions =
      [(Value.str "S1", msg1)] ∧
    alookup (Value.str "S1")
      (on_sonde_message cfg0 hav0 allOk st0 (.dict msg1)).1.last_positions =
      some msg1 := by
  have h := C5_track_state cfg0 hav0 allOk st0 msg1 (.str "S1")
    (.num 40.1) (.num (-105.1)) 40.1 (-105.1) 3000 none
    rfl rfl rfl rfl rfl rfl rfl
  exact ⟨h.1, h.2.1⟩

/-- C6: with every dispatch succeeding and distinct criterion names, one
valid report dispatches exactly the enabled criteria that match its derived
measurements and whose (name, serial) pair is not yet in the Alert Ledger,
in configured order, each dispatch carrying its criterion's name; disabled
criteria are never dispatched, and two enabled matching not-yet-alerted
criteria yield two dispatch calls. -/
theorem C6_per_report_dispatches (cfg : Config) (hav : ℚ × ℚ → ℚ × ℚ → ℚ)
    (st : State) (msg : Msg) (sid latV lonV : Value) (lat lon alt_m : ℚ)
    (climb : Option ℚ)
    (hs : alookup "serial" msg = some sid)
    (hla : alookup "lat" msg = some latV)
    (hlo : alookup "lon" msg = some lonV)
    (hlaf : latV.toFloat? = some lat)
    (hlof : lonV.toFloat? = some lon)
    (hma : ((alookup "alt" msg).getD (.num 0)).toFloat? = some alt_m)
    (hcl : computeClimbRate (alookup sid st.last_positions) msg = .ok climb)
    (hnd : (cfg.criteria.map Criterion.name).Nodup) :
    (on_sonde_message cfg hav allOk st (.dict msg)).2 =
      (cfg.criteria.filter (fun c => c.enabled &&
        sonde_meets_criteria c (hav cfg.user_location (lat, lon) * (0.621371 : ℚ))
          (alt_m * (3.28084 : ℚ)) climb &&
        !alreadySent st c.name sid)).map
        (fun c => ⟨c.name, sid, hav cfg.user_location (lat, lon) * (0.621371 : ℚ),
          alt_m * (3.28084 : ℚ), climb⟩) := by
  rw [on_sonde_message_valid cfg hav allOk st msg sid latV lonV lat lon alt_m
    climb hs hla hlo hlaf hlof hma hcl]
  rw [runCriteria_notifs_eq _ _ _ _ cfg.criteria _ hnd]
  rfl

/-- Witness for C6: the sample report matches both enabled criteria of
`cfg2` from the fresh state, so both are dispatched, in order, under their
own names. -/
theorem C6_per_report_dispatches_witness :
    ((on_sonde_message cfg2 hav0 allOk st0 (.dict msg1)).2.map
      Notification.criteria_name) = ["close", "low"] := by
  rw [C6_per_report_dispatches cfg2 hav0 st0 msg1 (.str "S1") (.num 40.1)
    (.num (-105.1)) 40.1 (-105.1) 3000 none rfl rfl rfl rfl rfl rfl rfl
    (by simp [cfg2])]
  simp [cfg2, close_matches_msg1, low_matches_msg1, alreadySent, st0, alookup]

/-- C7: the callback never propagates an exception.  Its translation with
the `try`/`except` removed (`on_sonde_messageRaw`, where every exception
carries the effects already made) composed with the catch-all handler is
exactly `on_sonde_message`, which returns normally on every input; and
processing of the rest of the stream continues from the caught state. -/
theorem C7_no_exception_escapes (cfg : Config) (hav : ℚ × ℚ → ℚ × ℚ → ℚ)
    (nok : String → Value → Bool) (st : State) (obj : PyObj) :
    on_sonde_message cfg hav nok st obj =
      handleExc (on_sonde_messageRaw cfg hav nok st obj) ∧
    ∀ rest : List PyObj,
      (processAll cfg hav nok st (obj :: rest)).2 =
        (handleExc (on_sonde_messageRaw cfg hav nok st obj)).2 ++
        (processAll cfg hav nok
          (handleExc (on_sonde_messageRaw cfg hav nok st obj)).1 rest).2 := by
  have h1 : on_sonde_message cfg hav nok st obj =
      handleExc (on_sonde_messageRaw cfg hav nok st obj) := by
    cases obj with
    | other => rfl
    | dict msg =>
      cases hser : alookup "serial" msg <;>
        cases hlat : alookup "lat" msg <;>
        cases hlon : alookup "lon" msg <;>
        simp only [on_sonde_message, on_sonde_messageRaw, hser, hlat, hlon] <;>
        try rfl
      rename_i sid latV lonV
      cases hlaf : latV.toFloat? <;>
        cases hlof : lonV.toFloat? <;>
        cases hmaf : ((alookup "alt" msg).getD (.num 0)).toFloat? <;>
        simp only [hlaf, hlof, hmaf] <;>
        try rfl
      rename_i lat lon alt_m
      cases hcl : computeClimbRate (alookup sid st.last_positions) msg with
      | error e => simp only [hcl]; rfl
      | ok climb =>
        simp only [hcl]
        exact runCriteria_eq_handle nok sid _ _ climb cfg.criteria _
  refine ⟨h1, fun rest => ?_⟩
  show ((on_sonde_message cfg hav nok st obj).2 ++
      (processAll cfg hav nok (on_sonde_message cfg hav nok st obj).1 rest).2) = _
  rw [h1]

/-- C8: every dispatch call for a valid report carries an altitude in feet
equal to the altitude in meters times the literal 3.28084, and a distance
in miles equal to the haversine distance in kilometers times the literal
0.621371. -/
theorem C8_conversion_factors (cfg : Config) (hav : ℚ × ℚ → ℚ × ℚ → ℚ)
    (nok : String → Value → Bool) (st : State) (msg : Msg)
    (sid latV lonV : Value) (lat lon alt_m : ℚ) (climb : Option ℚ)
    (hs : alookup "serial" msg = some sid)
    (hla : alookup "lat" msg = some latV)
    (hlo : alookup "lon" msg = some lonV)
    (hlaf : latV.toFloat? = some lat)
    (hlof : lonV.toFloat? = some lon)
    (hma : ((alookup "alt" msg).getD (.num 0)).toFloat? = some alt_m)
    (hcl : computeClimbRate (alookup sid st.last_positions) msg = .ok climb) :
    ∀ n ∈ (on_sonde_message cfg hav nok st (.dict msg)).2,
      n.altitude_feet = alt_m * (3.28084 : ℚ) ∧
      n.distance_miles = hav cfg.user_location (lat, lon) * (0.621371 : ℚ) := by
  have h := on_sonde_message_valid cfg hav nok st msg sid latV lonV lat lon
    alt_m climb hs hla hlo hlaf hlof hma hcl
  rw [h]
  intro n hn
  have := runCriteria_mem nok sid
    (hav cfg.user_location (lat, lon) * (0.621371 : ℚ)) (alt_m * (3.28084 : ℚ))
    climb cfg.criteria _ n hn
  exact ⟨this.2.2.1, this.2.1⟩

/-- Witness for C8: the dispatch produced by the sample report at 3000 m
altitude and 10 km haversine distance carries 3000·3.28084 feet and
10·0.621371 miles. -/
theorem C8_conversion_factors_witness :
    (Notification.mk "close" (.str "S1")
        (hav0 cfg0.user_location (40.1, -105.1) * (0.621371 : ℚ))
        (3000 * (3.28084 : ℚ)) none).altitude_feet = 3000 * (3.28084 : ℚ) ∧
    (Notification.mk "close" (.str "S1")
        (hav0 cfg0.user_location (40.1, -105.1) * (0.621371 : ℚ))
        (3000 * (3.28084 : ℚ)) none).distance_miles =
      hav0 cfg0.user_location (40.1, -105.1) * (0.621371 : ℚ) :=
  C8_conversion_factors cfg0 hav0 allOk st0 msg1 (.str "S1")
    (.num 40.1) (.num (-105.1)) 40.1 (-105.1) 3000 none
    rfl rfl rfl rfl rfl rfl rfl _ (by rw [run_close_msg1]; simp)

/-- C9: a report with the required keys whose `time` value is a
non-numeric string, arriving when the stored previous report for its
serial has nonzero numeric `alt` and `time`, aborts through the exception
handler before the store update: the state (both the track state and the
Alert Ledger) is unchanged and nothing is dispatched. -/
theorem C9_bad_time_aborts (cfg : Config) (hav : ℚ × ℚ → ℚ × ℚ → ℚ)
    (nok : String → Value → Bool) (st : State) (msg prev : Msg)
    (sid : Value) (s' : String) (tP aP : ℚ)
    (hs : alookup "serial" msg = some sid)
    (hla : (alookup "lat" msg).isSome = true)
    (hlo : (alookup "lon" msg).isSome = true)
    (hmt : alookup "time" msg = some (.str s'))
    (hprev : alookup sid st.last_positions = some prev)
    (hpa : alookup "alt" prev = some (.num aP)) (haP : aP ≠ 0)
    (hpt : alookup "time" prev = some (.num tP)) (htP : tP ≠ 0) :
    on_sonde_message cfg hav nok st (.dict msg) = (st, []) := by
  have hcl : computeClimbRate (some prev) msg = .error () := by
    simp [computeClimbRate, hpa, hpt, hmt, Value.truthy, Value.toFloat?, haP, htP]
  obtain ⟨latV, hla'⟩ := Option.isSome_iff_exists.mp hla
  obtain ⟨lonV, hlo'⟩ := Option.isSome_iff_exists.mp hlo
  simp only [on_sonde_message, hs, hla', hlo']
  cases hf1 : latV.toFloat? <;> cases hf2 : lonV.toFloat? <;>
    cases hf3 : ((alookup "alt" msg).getD (.num 0)).toFloat? <;>
    simp [hprev, hcl]

/-- Witness for C9: with `msg1` stored for S1, a follow-up report whose
`time` is the string "not-a-number" leaves the state untouched and
dispatches nothing. -/
theorem C9_bad_time_aborts_witness :
    on_sonde_message cfg0 hav0 allOk stPrev (.dict msgBadTime) = (stPrev, []) :=
  C9_bad_time_aborts cfg0 hav0 allOk stPrev msgBadTime msg1 (.str "S1")
    "not-a-number" 1000 3000 rfl rfl rfl rfl rfl rfl (by norm_num) rfl
    (by norm_num)

/-- C10: the ledger entry for a pair is written only after the dispatch
call returns: when the head criterion is enabled, matches, is not yet
alerted and its dispatch raises, the callback ends with exactly that one
dispatch attempt recorded, the pair still absent from the Alert Ledger and
every remaining criterion skipped, while the track-state update already
made persists; replaying the same report with a dispatcher that now
succeeds for the pair dispatches it exactly once more. -/
theorem C10_ledger_after_dispatch (cfg : Config) (hav : ℚ × ℚ → ℚ × ℚ → ℚ)
    (nok : String → Value → Bool) (st : State) (msg : Msg)
    (sid latV lonV : Value) (lat lon alt_m : ℚ) (climb : Option ℚ)
    (c : Criterion) (post : List Criterion)
    (hs : alookup "serial" msg = some sid)
    (hla : alookup "lat" msg = some latV)
    (hlo : alookup "lon" msg = some lonV)
    (hlaf : latV.toFloat? = some lat)
    (hlof : lonV.toFloat? = some lon)
    (hma : ((alookup "alt" msg).getD (.num 0)).toFloat? = some alt_m)
    (hcl : computeClimbRate (alookup sid st.last_positions) msg = .ok climb)
    (hmt : alookup "time" msg = none ∨ ∃ t : ℚ, alookup "time" msg = some (.num t))
    (hcs : cfg.criteria = c :: post)
    (he : c.enabled = true)
    (hm : sonde_meets_criteria c (hav cfg.user_location (lat, lon) * (0.621371 : ℚ))
      (alt_m * (3.28084 : ℚ)) climb = true)
    (hns : alreadySent st c.name sid = false)
    (hf : nok c.name sid = false) :
    on_sonde_message cfg hav nok st (.dict msg) =
      (ensureEntry { st with last_positions := aupdate sid msg st.last_positions }
        c.name,
       [⟨c.name, sid, hav cfg.user_location (lat, lon) * (0.621371 : ℚ),
         alt_m * (3.28084 : ℚ), climb⟩]) ∧
    alreadySent (on_sonde_message cfg hav nok st (.dict msg)).1 c.name sid = false ∧
    (∀ nok' : String → Value → Bool, nok' c.name sid = true →
      countPair c.name sid
        (on_sonde_message cfg hav nok'
          (on_sonde_message cfg hav nok st (.dict msg)).1 (.dict msg)).2 = 1) := by
  have h1 : on_sonde_message cfg hav nok st (.dict msg) =
      (ensureEntry { st with last_positions := aupdate sid msg st.last_positions }
        c.name,
       [⟨c.name, sid, hav cfg.user_location (lat, lon) * (0.621371 : ℚ),
         alt_m * (3.28084 : ℚ), climb⟩]) := by
    rw [on_sonde_message_valid cfg hav nok st msg sid latV lonV lat lon alt_m
      climb hs hla hlo hlaf hlof hma hcl, hcs]
    simp only [runCriteria, he, hm, alreadySent_ensureEntry, alreadySent_lp,
      hns, hf]
    simp
  refine ⟨h1, ?_, ?_⟩
  · rw [h1]
    simp only [alreadySent_ensureEntry, alreadySent_lp]
    exact hns
  · intro nok' hok'
    rw [h1]
    have hlp1 : (ensureEntry
        { st with last_positions := aupdate sid msg st.last_positions }
        c.name).last_positions = aupdate sid msg st.last_positions :=
      ensureEntry_last_positions _ c.name
    have hcl1 : computeClimbRate
        (alookup sid (ensureEntry
          { st with last_positions := aupdate sid msg st.last_positions }
          c.name).last_positions) msg = .ok none := by
      rw [hlp1, alookup_aupdate_self]
      exact computeClimbRate_self msg alt_m hma hmt
    rw [on_sonde_message_valid cfg hav nok' _ msg sid latV lonV lat lon alt_m
      none hs hla hlo hlaf hlof hma hcl1, hcs]
    simp only [runCriteria, he, sonde_meets_criteria_none_of _ _ _ _ hm,
      alreadySent_ensureEntry, alreadySent_lp, hns, hok']
    simp only [Bool.true_eq_false, if_false, Bool.false_eq_true, if_true]
    rw [countPair_cons,
      runCriteria_sent_countPair nok' sid _ _ none c.name post _
        (alreadySent_markSent_self _ _ _)]
    simp

/-- Witness for C10: with a dispatcher that always raises, the sample
report attempts "close" once without recording it in the ledger, and a
replay with a working dispatcher dispatches the pair exactly once. -/
theorem C10_ledger_after_dispatch_witness :
    alreadySent (on_sonde_message cfg0 hav0 noOk st0 (.dict msg1)).1 "close"
      (.str "S1") = false ∧
    countPair "close" (.str "S1")
      (on_sonde_message cfg0 hav0 allOk
        (on_sonde_message cfg0 hav0 noOk st0 (.dict msg1)).1 (.dict msg1)).2 = 1 := by
  have h := C10_ledger_after_dispatch cfg0 hav0 noOk st0 msg1 (.str "S1")
    (.num 40.1) (.num (-105.1)) 40.1 (-105.1) 3000 none
    ⟨"close", true, some 50, none, none, none, none⟩ []
    rfl rfl rfl rfl rfl rfl rfl (Or.inr ⟨1000, rfl⟩) rfl rfl
    (close_matches_msg1 cfg0.user_location (40.1, -105.1)) rfl rfl
  exact ⟨h.2.1, h.2.2 allOk rfl⟩

/-- Witness for C4: a report carrying only `lat` and `lon` is discarded
from the fresh state. -/
theorem C4_invalid_discarded_witness :
    on_sonde_message cfg0 hav0 allOk st0
      (.dict [("lat", .num 40), ("lon", .num (-105))]) = (st0, []) :=
  C4_invalid_discarded cfg0 hav0 allOk st0
    (.dict [("lat", .num 40), ("lon", .num (-105))])
    (Or.inr ⟨[("lat", .num 40), ("lon", .num (-105))], rfl, Or.inl (by decide)⟩)

end SnodeAlert
